import Mathlib

/-!
# Verification of the WhatsApp Flow booking endpoint

Shallow embedding of the repository's flow endpoint:
* the hybrid crypto envelope (`decryptRequest` / `encryptResponse`,
  modelled from the spec — the module `flow-endpoint-crypto` is only
  referenced by the sources at hand),
* the availability engine (`getAvailableSlots`, `getCalendarPickerData`
  from `flow-endpoint-handlers`),
* the booking state machine (`handleDataExchange`, `handleBack`,
  `handleInit`, `handleFlowAction`),
* the endpoint controller (`POST` from `app/api/flows/endpoint/route.ts`).

Conventions used throughout the embedding:
* byte strings are `List Nat` with each element `< 256`;
* instants are epoch milliseconds (`Int`), matching `Date.getTime()`;
* external collaborators (Supabase settings, Google Calendar, the
  `date-fns-tz` formatting library) are inputs of the functions that
  consume them, gathered in the `Env` structure.
-/

namespace Zap

/-! ## Crypto envelope (modelled from the spec)

The module `flow-endpoint-crypto` is not among the sources; only its
callers are.  Everything in this section is therefore modelled from the
spec (§4.1, §8): RSA-OAEP unwraps a 128-bit session key, and an
authenticated symmetric cipher (AES-GCM) protects the JSON payload.  The
authenticated cipher is modelled as an ideal cipher: decryption succeeds
exactly when presented with the key and IV that produced the ciphertext,
and returns the original payload. -/

/-- Modelled from the spec: bitwise NOT of one byte (`~b & 0xFF`). -/
def flipByte (b : Nat) : Nat := 255 - b % 256

/-- Modelled from the spec: the response IV is the request IV with every
bit flipped, over all 16 bytes. -/
def flipIV (iv : List Nat) : List Nat := iv.map flipByte

/-- Modelled from the spec: an authenticated symmetric ciphertext.  The
ideal-cipher model records the key, IV and payload; decryption checks the
key and IV (GCM authentication) and never reveals the payload otherwise. -/
structure SymCiphertext (α : Type) where
  key : List Nat
  iv : List Nat
  payload : α
deriving DecidableEq

/-- Modelled from the spec: authenticated symmetric encryption of a
payload under a key and IV. -/
def symEncrypt {α : Type} (key iv : List Nat) (payload : α) : SymCiphertext α :=
  ⟨key, iv, payload⟩

/-- Modelled from the spec: authenticated symmetric decryption; fails
(authentication failure) unless the key and IV are exactly those used to
produce the ciphertext. -/
def symDecrypt {α : Type} (key iv : List Nat) (ct : SymCiphertext α) : Option α :=
  if ct.key = key ∧ ct.iv = iv then some ct.payload else none

/-- Modelled from the spec: an RSA-OAEP-wrapped session key.  Key pairs
are abstract handles: the public half is identified with the private half
it matches. -/
structure WrappedKey where
  pubUsed : Nat
  sessionKey : List Nat
deriving DecidableEq

/-- Modelled from the spec: wrapping the session key under a public key. -/
def rsaWrap (pub : Nat) (k : List Nat) : WrappedKey := ⟨pub, k⟩

/-- Modelled from the spec: OAEP unwrap with the private key; fails when
the stored public key does not match the private key (key mismatch). -/
def rsaUnwrap (priv : Nat) (w : WrappedKey) : Option (List Nat) :=
  if w.pubUsed = priv then some w.sessionKey else none

/-- One hybrid-encrypted wire message: `{encrypted_flow_data,
encrypted_aes_key, initial_vector}` (base64 transport elided). -/
structure FlowEnvelope (α : Type) where
  encrypted_flow_data : SymCiphertext α
  encrypted_aes_key : WrappedKey
  initial_vector : List Nat
deriving DecidableEq

/-- The two failure kinds of `decryptRequest` distinguished by the spec:
asymmetric-unwrap failure (key mismatch — in Node, an OAEP error) versus
payload-integrity/decryption failure. -/
inductive DecryptError where
  | keyMismatch
  | integrityFailure
deriving DecidableEq

/-- Result of `decryptRequest`: the decrypted JSON body plus the session
key and request IV, scoped to this request/response pair. -/
structure DecryptedRequest (α : Type) where
  decryptedBody : α
  aesKeyBuffer : List Nat
  initialVectorBuffer : List Nat
deriving DecidableEq

/-- Modelled from the spec: `decrypt(envelope, privateKey)`.  Unwraps the
session key with OAEP (key-mismatch failure is distinguished), then
decrypts the payload with the session key and the request IV
(authenticated; integrity failure otherwise). -/
def decryptRequest {α : Type} (env : FlowEnvelope α) (priv : Nat) :
    Except DecryptError (DecryptedRequest α) :=
  match rsaUnwrap priv env.encrypted_aes_key with
  | none => .error .keyMismatch
  | some key =>
    match symDecrypt key env.initial_vector env.encrypted_flow_data with
    | none => .error .integrityFailure
    | some body => .ok ⟨body, key, env.initial_vector⟩

/-- Modelled from the spec: `encrypt(plaintext, sessionKey, requestIV)`
encrypts with the same symmetric key but with the IV computed by flipping
every bit of `requestIV`. -/
def encryptResponse {α : Type} (resp : α) (key iv : List Nat) : SymCiphertext α :=
  symEncrypt key (flipIV iv) resp

/-- Modelled from the spec: an external reference decryptor that follows
the flipped-IV convention — it decrypts a response ciphertext using the
bitwise complement of the request IV. -/
def referenceDecrypt {α : Type} (key requestIV : List Nat) (ct : SymCiphertext α) :
    Option α :=
  symDecrypt key (flipIV requestIV) ct

/-! ## Civil-date arithmetic

`getCalendarPickerData` steps through dates with
`new Date(Date.UTC(year, month - 1, day + offset, 12, 0, 0))` and reads
back `toISOString().split("T")[0]` and `getUTCDay()`.  `Date.UTC`
normalises day overflow exactly like adding days to the civil date, so the
embedding represents a `yyyy-MM-dd` date string by its civil triple and
implements the proleptic-Gregorian day count (same algorithm family as the
ECMAScript day-number conversion). -/

/-- A `yyyy-MM-dd` calendar date, represented by its components. -/
structure CivilDate where
  year : Nat
  month : Nat
  day : Nat
deriving DecidableEq

/-- Day count of a civil date (days since 0000-03-01, valid for the years
this endpoint handles). -/
def daysFromCivil (d : CivilDate) : Nat :=
  let y := if d.month ≤ 2 then d.year - 1 else d.year
  let era := y / 400
  let yoe := y % 400
  let mp := if 2 < d.month then d.month - 3 else d.month + 9
  let doy := (153 * mp + 2) / 5 + (d.day - 1)
  let doe := yoe * 365 + yoe / 4 - yoe / 100 + doy
  era * 146097 + doe

/-- Civil date of a day count (inverse of `daysFromCivil`). -/
def civilFromDays (z : Nat) : CivilDate :=
  let era := z / 146097
  let doe := z % 146097
  let yoe := (doe - doe / 1460 + doe / 36524 - doe / 146096) / 365
  let y := yoe + era * 400
  let doy := doe - (365 * yoe + yoe / 4 - yoe / 100)
  let mp := (5 * doy + 2) / 153
  let d := doy - (153 * mp + 2) / 5 + 1
  let m := if mp < 10 then mp + 3 else mp - 9
  if m ≤ 2 then ⟨y + 1, m, d⟩ else ⟨y, m, d⟩

/-- Model of `Date.UTC(year, month - 1, day + n)` normalisation: the civil date
`n` days after `d`. -/
def addDays (d : CivilDate) (n : Nat) : CivilDate :=
  civilFromDays (daysFromCivil d + n)

/-- Model of `getUTCDay()` of a civil date: 0 = Sunday … 6 = Saturday. -/
def jsUTCDay (d : CivilDate) : Nat :=
  (daysFromCivil d + 3) % 7

/-! ## Availability engine (`flow-endpoint-handlers`, src/unnamed/part_005) -/

/-- The weekday keys of the working-hours configuration. -/
inductive Weekday where
  | mon | tue | wed | thu | fri | sat | sun
deriving DecidableEq

/-- Model of `WEEKDAY_KEYS`: ISO weekday order, Monday first. -/
def WEEKDAY_KEYS : List Weekday := [.mon, .tue, .wed, .thu, .fri, .sat, .sun]

/-- Model of `WEEKDAY_LABELS`: the three-letter labels used by the date picker. -/
def WEEKDAY_LABELS : Weekday → String
  | .mon => "Mon"
  | .tue => "Tue"
  | .wed => "Wed"
  | .thu => "Thu"
  | .fri => "Fri"
  | .sat => "Sat"
  | .sun => "Sun"

/-- Model of `WEEKDAY_FULL_LABELS`: the localized weekday names. -/
def WEEKDAY_FULL_LABELS : Weekday → String
  | .mon => "Segunda"
  | .tue => "Terca"
  | .wed => "Quarta"
  | .thu => "Quinta"
  | .fri => "Sexta"
  | .sat => "Sabado"
  | .sun => "Domingo"

/-- An `"HH:mm"` time-of-day string, represented by its two numeric
components (the digit parsing of `parseTimeToMinutes` is elided). -/
structure TimeStr where
  hh : Nat
  mm : Nat
deriving DecidableEq

/-- Model of `parseTimeToMinutes`: `(hh || 0) * 60 + (mm || 0)`. -/
def parseTimeToMinutes (value : TimeStr) : Nat :=
  value.hh * 60 + value.mm

/-- One `{start, end}` work period of a day. -/
structure WorkPeriod where
  start : TimeStr
  «end» : TimeStr
deriving DecidableEq

/-- Model of `WorkingHoursDay`: one weekday's configuration. -/
structure WorkingHoursDay where
  day : Weekday
  enabled : Bool
  start : TimeStr
  «end» : TimeStr
  slots : Option (List WorkPeriod) := none
deriving DecidableEq

/-- Model of `CalendarBookingConfig` as loaded from settings storage. -/
structure CalendarBookingConfig where
  timezone : String
  slotDurationMinutes : Nat
  slotBufferMinutes : Nat
  workingHours : List WorkingHoursDay
  minAdvanceHours : Option Nat := none
  maxAdvanceDays : Option Nat := none
  allowSimultaneous : Option Bool := none
deriving DecidableEq

/-- Model of `ServiceType`: one bookable service. -/
structure ServiceType where
  id : String
  title : String
  durationMinutes : Option Nat := none
deriving DecidableEq

/-- Model of `DEFAULT_SERVICES`. -/
def DEFAULT_SERVICES : List ServiceType :=
  [⟨"consulta", "Consulta", some 30⟩,
   ⟨"visita", "Visita", some 60⟩,
   ⟨"suporte", "Suporte", some 30⟩]

/-- Model of `DEFAULT_CONFIG`. -/
def DEFAULT_CONFIG : CalendarBookingConfig :=
  { timezone := "America/Sao_Paulo"
    slotDurationMinutes := 30
    slotBufferMinutes := 10
    workingHours :=
      [⟨.mon, true, ⟨9, 0⟩, ⟨18, 0⟩, none⟩,
       ⟨.tue, true, ⟨9, 0⟩, ⟨18, 0⟩, none⟩,
       ⟨.wed, true, ⟨9, 0⟩, ⟨18, 0⟩, none⟩,
       ⟨.thu, true, ⟨9, 0⟩, ⟨18, 0⟩, none⟩,
       ⟨.fri, true, ⟨9, 0⟩, ⟨18, 0⟩, none⟩,
       ⟨.sat, false, ⟨9, 0⟩, ⟨13, 0⟩, none⟩,
       ⟨.sun, false, ⟨9, 0⟩, ⟨13, 0⟩, none⟩]
    minAdvanceHours := some 4
    maxAdvanceDays := some 14
    allowSimultaneous := some false }

/-- What `date-fns-tz` resolves for one calendar date string in the
configured time zone: `baseMs` is
`fromZonedTime(dateStr + "T00:00:00", timeZone).getTime()`, and local
wall time `m` minutes past midnight on that date maps to
`baseMs + m * 60000` (fixed-offset model of the zone on that date);
`isoWeekday` is `Number(formatInTimeZone(date, timeZone, "i"))`,
1 = Monday … 7 = Sunday. -/
structure DateContext where
  baseMs : Int
  isoWeekday : Nat
deriving DecidableEq

/-- Model of `fromZonedTime(dateStr + "T" + timeStr + ":00", timeZone).getTime()`
for a wall-clock time `m` minutes past midnight. -/
def fromZonedMinutes (ctx : DateContext) (m : Nat) : Int :=
  ctx.baseMs + (m : Int) * 60000

/-- Model of `getWeekdayKey(date, timeZone)`: `WEEKDAY_KEYS[isoDay - 1]`. -/
def getWeekdayKey (ctx : DateContext) : Weekday :=
  WEEKDAY_KEYS.getD (ctx.isoWeekday - 1) .mon

/-- One busy interval reported by the external calendar, by its instants
(`new Date(item.start).getTime()` / `new Date(item.end).getTime()`). -/
structure BusyTime where
  startMs : Int
  endMs : Int
deriving DecidableEq

/-- The buffer expansion applied to each busy interval:
`{startMs: start - bufferMs, endMs: end + bufferMs}`. -/
def expandBusy (bufferMs : Int) (b : BusyTime) : BusyTime :=
  ⟨b.startMs - bufferMs, b.endMs + bufferMs⟩

/-- The collision test of `getAvailableSlots`:
`busy.some((b) => slotStartMs < b.endMs && slotEndMs > b.startMs)`. -/
def hasConflict (busy : List BusyTime) (slotStartMs slotEndMs : Int) : Bool :=
  busy.any fun b => slotStartMs < b.endMs && slotEndMs > b.startMs

/-- One slot pushed by `getAvailableSlots`: `id` is the slot start
instant (standing for `slotStart.toISOString()`), `title` the wall-clock
minutes past midnight (standing for the `"HH:mm"` label). -/
structure Slot where
  id : Int
  title : Nat
deriving DecidableEq

/-- The per-period `while` loop of `getAvailableSlots`, with an explicit
fuel argument (the source loop advances `currentMinutes` by
`slotDuration` each iteration; `workEnd + 1` fuel suffices whenever the
slot duration is positive, see `generateSlotsLoop_fuel_irrelevant`). -/
def generateSlotsLoop (slotDuration workEnd : Nat) (ctx : DateContext)
    (minAllowedTime : Int) (busy : List BusyTime) :
    Nat → Nat → List Slot
  | 0, _ => []
  | fuel + 1, currentMinutes =>
    if currentMinutes + slotDuration ≤ workEnd then
      let slotStart := fromZonedMinutes ctx currentMinutes
      let slotEnd := slotStart + (slotDuration : Int) * 60 * 1000
      if slotStart ≤ minAllowedTime then
        generateSlotsLoop slotDuration workEnd ctx minAllowedTime busy fuel
          (currentMinutes + slotDuration)
      else if hasConflict busy slotStart slotEnd then
        generateSlotsLoop slotDuration workEnd ctx minAllowedTime busy fuel
          (currentMinutes + slotDuration)
      else
        ⟨slotStart, currentMinutes⟩ ::
          generateSlotsLoop slotDuration workEnd ctx minAllowedTime busy fuel
            (currentMinutes + slotDuration)
    else []

/-- Model of `getAvailableSlots(dateStr)`.  The external inputs the source fetches
inside the function (booking config, calendar connection, busy intervals,
the current instant, the date resolved in the configured time zone) are
parameters here.  Throwing is modelled by `Except.error` with the thrown
message. -/
def getAvailableSlots (config : CalendarBookingConfig) (calendarId : Option String)
    (ctx : DateContext) (nowMs : Int) (busyItems : List BusyTime) :
    Except String (List Slot) :=
  match calendarId with
  | none => .error "Google Calendar nao conectado"
  | some _ =>
    let slotDuration := config.slotDurationMinutes
    let bufferMinutes := config.slotBufferMinutes
    let minAdvanceHours := config.minAdvanceHours.getD 0
    let minAllowedTime := nowMs + (minAdvanceHours : Int) * 60 * 60 * 1000
    let bufferMs : Int := (bufferMinutes : Int) * 60 * 1000
    let busy := busyItems.map (expandBusy bufferMs)
    let dayKey := getWeekdayKey ctx
    match config.workingHours.find? (fun d => d.day == dayKey) with
    | none => .ok []
    | some workingDay =>
      if !workingDay.enabled then .ok []
      else
        let workPeriods : List WorkPeriod :=
          match workingDay.slots with
          | some ps => if 0 < ps.length then ps else [⟨workingDay.start, workingDay.«end»⟩]
          | none => [⟨workingDay.start, workingDay.«end»⟩]
        .ok (workPeriods.flatMap fun period =>
          let workStart := parseTimeToMinutes period.start
          let workEnd := parseTimeToMinutes period.«end»
          generateSlotsLoop slotDuration workEnd ctx minAllowedTime busy
            (workEnd + 1) workStart)

/-- Model of `CalendarPickerData` (min/max dates, allowed weekdays, denylist). -/
structure CalendarPickerData where
  minDate : CivilDate
  maxDate : CivilDate
  includeDays : List String
  unavailableDates : List CivilDate
deriving DecidableEq

/-- Model of `getCalendarPickerData()`.  `today` is the current date in
`config.timezone` (`formatInTimeZone(new Date(), timeZone, "yyyy-MM-dd")`),
a parameter here. -/
def getCalendarPickerData (config : CalendarBookingConfig) (today : CivilDate) :
    CalendarPickerData :=
  let maxAdvanceDays := config.maxAdvanceDays.getD 14
  let maxDateStr := addDays today maxAdvanceDays
  let includeDays :=
    (config.workingHours.filter fun d => d.enabled).map fun d => WEEKDAY_LABELS d.day
  let unavailableDates :=
    (List.range (maxAdvanceDays + 1)).filterMap fun dayOffset =>
      let dateStr := addDays today dayOffset
      let jsDay := jsUTCDay dateStr
      let isoDay := if jsDay == 0 then 7 else jsDay
      let dayKey := WEEKDAY_KEYS.getD (isoDay - 1) .mon
      match config.workingHours.find? (fun d => d.day == dayKey) with
      | some workingDay => if workingDay.enabled then none else some dateStr
      | none => some dateStr
  { minDate := today
    maxDate := maxDateStr
    includeDays := includeDays
    unavailableDates := unavailableDates }

/-! ## Booking state machine (`flow-endpoint-handlers`) -/

/-- The `data` mapping of a decrypted request, restricted to the keys the
handlers read.  `error` records whether an `error` key is present (the
client's error-notification payload). -/
structure FlowData where
  selected_date : Option String := none
  selected_service : Option String := none
  selected_slot : Option String := none
  customer_name : Option String := none
  customer_phone : Option String := none
  notes : Option String := none
  error : Bool := false
deriving DecidableEq

/-- The response `data` mapping, restricted to the keys the handlers
write; absent keys are `none`. -/
structure RData where
  services : Option (List (String × String)) := none
  min_date : Option CivilDate := none
  max_date : Option CivilDate := none
  include_days : Option (List String) := none
  unavailable_dates : Option (List CivilDate) := none
  title : Option String := none
  subtitle : Option String := none
  error_message : Option String := none
  has_error : Option Bool := none
  selected_service : Option String := none
  selected_date : Option String := none
  selected_slot : Option String := none
  customer_name : Option String := none
  customer_phone : Option String := none
  notes : Option String := none
  slots : Option (List Slot) := none
  success : Option Bool := none
  event_id : Option String := none
  message : Option String := none
deriving DecidableEq

/-- The JS spread `{...data, ...}` of the request data into a response:
the request keys this embedding models, echoed back. -/
def spreadData (d : FlowData) : RData :=
  { selected_service := d.selected_service
    selected_date := d.selected_date
    selected_slot := d.selected_slot
    customer_name := d.customer_name
    customer_phone := d.customer_phone
    notes := d.notes }

/-- The plaintext responses a handler can produce (§6): a continue
payload `{screen, data}`, a terminal close payload, a structured error
response, or the error-notification acknowledgement
`{data: {acknowledged: true}}`. -/
inductive FlowResponse where
  | success (screen : String) (data : RData)
  | close (data : RData)
  | error (message : String)
  | ack
deriving DecidableEq

/-- Modelled from the spec: `createSuccessResponse(screen, data)` builds
the continue payload `{screen, data}` (§6). -/
def createSuccessResponse (screen : String) (data : RData) : FlowResponse :=
  .success screen data

/-- Modelled from the spec: `createCloseResponse(data)` builds the
terminal close payload `{data}` with no further screen (§6). -/
def createCloseResponse (data : RData) : FlowResponse :=
  .close data

/-- Modelled from the spec: `createErrorResponse(message)` builds the
structured error response that instructs the client to re-render the
current screen with an error flag and this message rather than advance
(§4.3, §7); it carries no screen payload, plaintext or key material. -/
def createErrorResponse (message : String) : FlowResponse :=
  .error message

/-- The event object returned by the external `createEvent` call. -/
structure GCalEvent where
  id : Option String := none
  htmlLink : Option String := none
deriving DecidableEq

/-- The per-request environment: everything the handlers obtain from
external collaborators (settings storage, the Google Calendar connection
and API, the clock, and the `date-fns-tz` formatting library). -/
structure Env where
  /-- Model of `getCalendarBookingConfig()` (settings storage, with defaults). -/
  config : CalendarBookingConfig
  /-- Model of `getCalendarConfig()?.calendarId`. -/
  calendarId : Option String
  /-- Model of `new Date().getTime()`. -/
  nowMs : Int
  /-- Model of `listBusyTimes(...)` for the requested day. -/
  busyItems : List BusyTime
  /-- Resolution of a date string in `config.timezone` (`date-fns-tz`). -/
  dateCtx : String → DateContext
  /-- Today's date in `config.timezone`. -/
  today : CivilDate
  /-- Model of `new Date(s).getTime()` — `none` when `s` parses to Invalid Date. -/
  parseDateMs : String → Option Int
  /-- Outcome of the external `createEvent` call. -/
  createEventResult : Except String GCalEvent
  /-- Model of `formatInTimeZone(date, timeZone, "dd/MM")` of a date string. -/
  formatDDMM : String → String
  /-- Model of `formatInTimeZone(date, timeZone, "dd/MM/yyyy")` of a date string. -/
  formatDDMMYYYY : String → String
  /-- Model of `formatInTimeZone(instant, timeZone, "HH:mm")` of an instant. -/
  formatHHmmOfMs : Int → String
  /-- Model of `formatInTimeZone(instant, timeZone, "yyyy-MM-dd")` of an instant. -/
  formatDateKeyOfMs : Int → String

/-- Model of `formatDateChip(dateStr, timeZone)`:
`` `${dayLabel} - ${dd/MM}` ``. -/
def formatDateChip (env : Env) (dateStr : String) : String :=
  WEEKDAY_FULL_LABELS (getWeekdayKey (env.dateCtx dateStr)) ++ " - " ++
    env.formatDDMM dateStr

/-- Model of `formatDateLabel(dateStr, timeZone)`:
`` `${dd/MM/yyyy} (${dayLabel})` ``. -/
def formatDateLabel (env : Env) (dateStr : String) : String :=
  env.formatDDMMYYYY dateStr ++ " (" ++
    WEEKDAY_FULL_LABELS (getWeekdayKey (env.dateCtx dateStr)) ++ ")"

/-- JS falsiness of an optional string field read with `as string`:
`undefined` or the empty string. -/
def strFalsy (s : Option String) : Bool :=
  s.getD "" == ""

/-- Model of `String.prototype.trim()`: strips leading and trailing whitespace
(modelled over the character list, with the JS whitespace set restricted
to the common ASCII whitespace characters). -/
def jsTrim (s : String) : String :=
  let ws : Char → Bool := fun c => c == ' ' || c == '\t' || c == '\n' || c == '\r'
  ⟨(((s.data.dropWhile ws).reverse.dropWhile ws).reverse)⟩

/-- Parameters of `createBookingEvent`.  `slotIso` and `service` arrive
unvalidated from the request data, so they may be absent. -/
structure BookingParams where
  slotIso : Option String
  service : Option String
  customerName : String
  customerPhone : String
  notes : Option String
deriving DecidableEq

/-- Result of `createBookingEvent`. -/
structure CreatedBooking where
  eventId : String
  eventLink : Option String
deriving DecidableEq

/-- Model of `createBookingEvent(params)`.  When `params.slotIso` is missing or
unparsable, `new Date(params.slotIso)` is an Invalid Date and
`slotStart.toISOString()` throws `RangeError: Invalid time value` while
the event payload is being built — before the external call.  The
calendar-connection check precedes that. -/
def createBookingEvent (env : Env) (params : BookingParams) :
    Except String CreatedBooking :=
  match env.calendarId with
  | none => .error "Google Calendar nao conectado"
  | some _ =>
    match params.slotIso.bind env.parseDateMs with
    | none => .error "Invalid time value"
    | some _slotStartMs =>
      match env.createEventResult with
      | .error msg => .error msg
      | .ok event =>
        .ok { eventId :=
                match event.id with
                | some s => if s = "" then "created" else s
                | none => "created"
              eventLink := event.htmlLink }

/-- Model of `handleInit()`.  `getCalendarPickerData` is pure in this embedding,
so the source's `catch` branch (`createErrorResponse("Erro ao carregar
opcoes de agendamento")`) is unreachable and elided. -/
def handleInit (env : Env) : FlowResponse :=
  let calendarPicker := getCalendarPickerData env.config env.today
  createSuccessResponse "BOOKING_START"
    { services := some (DEFAULT_SERVICES.map fun s => (s.id, s.title))
      min_date := some calendarPicker.minDate
      max_date := some calendarPicker.maxDate
      include_days := some calendarPicker.includeDays
      unavailable_dates := some calendarPicker.unavailableDates
      title := some "Agendar Atendimento"
      subtitle := some "Escolha o tipo de atendimento e a data desejada"
      error_message := some ""
      has_error := some false }

/-- Model of `handleDataExchange(screen, data)`.  The whole `switch` is wrapped in
`try/catch` with `catch (error) => createErrorResponse(error.message)`;
accordingly every throwing call is matched and its error message routed
to `createErrorResponse`. -/
def handleDataExchange (env : Env) (screen : String) (data : FlowData) :
    FlowResponse :=
  if screen == "BOOKING_START" then
    let selectedDate := data.selected_date
    let selectedService := data.selected_service
    if strFalsy selectedDate then createErrorResponse "Selecione uma data"
    else
      let dateStr := selectedDate.getD ""
      match getAvailableSlots env.config env.calendarId (env.dateCtx dateStr)
          env.nowMs env.busyItems with
      | .error msg => createErrorResponse msg
      | .ok slots =>
        if slots.length == 0 then
          let calendarPicker := getCalendarPickerData env.config env.today
          let formattedChip := formatDateChip env dateStr
          createSuccessResponse "BOOKING_START"
            { spreadData data with
              min_date := some calendarPicker.minDate
              max_date := some calendarPicker.maxDate
              include_days := some calendarPicker.includeDays
              unavailable_dates := some calendarPicker.unavailableDates
              error_message := some (formattedChip ++ " sem horarios. Escolha outra data.")
              has_error := some true }
        else
          let formattedDate := formatDateLabel env dateStr
          createSuccessResponse "SELECT_TIME"
            { selected_service := selectedService
              selected_date := selectedDate
              slots := some slots
              title := some "Escolha o Horario"
              subtitle := some ("Horarios disponiveis para " ++ formattedDate) }
  else if screen == "SELECT_TIME" then
    let selectedSlot := data.selected_slot
    if strFalsy selectedSlot then createErrorResponse "Selecione um horario"
    else
      createSuccessResponse "CUSTOMER_INFO"
        { selected_service := data.selected_service
          selected_date := data.selected_date
          selected_slot := selectedSlot
          title := some "Seus Dados"
          subtitle := some "Preencha seus dados para confirmar" }
  else if screen == "CUSTOMER_INFO" then
    let customerName := data.customer_name
    if jsTrim (customerName.getD "") == "" then createErrorResponse "Informe seu nome"
    else
      match createBookingEvent env
          { slotIso := data.selected_slot
            service := data.selected_service
            customerName := jsTrim (customerName.getD "")
            customerPhone := data.customer_phone.getD ""
            notes := data.notes } with
      | .error msg => createErrorResponse msg
      | .ok result =>
        let slotMs := (data.selected_slot.bind env.parseDateMs).getD 0
        let formattedTime := env.formatHHmmOfMs slotMs
        let dateKey := env.formatDateKeyOfMs slotMs
        let formattedDate := formatDateLabel env dateKey
        let serviceName :=
          match data.selected_service with
          | some sv => ((DEFAULT_SERVICES.find? fun s => s.id == sv).map
              fun s => s.title).getD sv
          | none => "undefined"
        createCloseResponse
          { success := some true
            event_id := some result.eventId
            selected_service := data.selected_service
            selected_date := some dateKey
            selected_slot := data.selected_slot
            customer_name := some (jsTrim (customerName.getD ""))
            customer_phone := some (data.customer_phone.getD "")
            notes := some (data.notes.getD "")
            message := some ("Agendamento confirmado!\n\n" ++ serviceName ++ "\n" ++
              formattedDate ++ " as " ++ formattedTime ++
              "\n\nVoce recebera um lembrete.") }
  else createErrorResponse ("Tela desconhecida: " ++ screen)

/-- Model of `handleBack(screen, data)`.  Unlike `handleDataExchange`, it has no
`try/catch`: a throw from `getAvailableSlots` escapes to the caller,
hence the `Except` result. -/
def handleBack (env : Env) (screen : String) (data : FlowData) :
    Except String FlowResponse :=
  if screen == "SELECT_TIME" then .ok (handleInit env)
  else if screen == "CUSTOMER_INFO" then
    if strFalsy data.selected_date then .ok (handleInit env)
    else
      let selectedDate := data.selected_date.getD ""
      match getAvailableSlots env.config env.calendarId (env.dateCtx selectedDate)
          env.nowMs env.busyItems with
      | .error msg => .error msg
      | .ok slots =>
        .ok (createSuccessResponse "SELECT_TIME"
          { spreadData data with
            slots := some slots
            title := some "Escolha o Horario"
            subtitle := some ("Horarios disponiveis para " ++
              formatDateLabel env selectedDate) })
  else .ok (handleInit env)

/-- The decrypted request body `{action, screen?, data?}`. -/
structure FlowRequest where
  action : String
  screen : Option String := none
  data : Option FlowData := none
deriving DecidableEq

/-- Model of `handleFlowAction(request)`: error-notification acknowledgement, then
dispatch on the action. -/
def handleFlowAction (env : Env) (request : FlowRequest) :
    Except String FlowResponse :=
  if (request.data.map FlowData.error).getD false then .ok .ack
  else if request.action == "INIT" then .ok (handleInit env)
  else if request.action == "data_exchange" then
    .ok (handleDataExchange env (request.screen.getD "") (request.data.getD {}))
  else if request.action == "BACK" then
    handleBack env (request.screen.getD "") (request.data.getD {})
  else .ok (createErrorResponse ("Acao desconhecida: " ++ request.action))

/-! ## Endpoint controller (`app/api/flows/endpoint/route.ts`) -/

/-- What `POST` returns: either a JSON error body with a status, or an
opaque ciphertext body (content-type `text/plain`). -/
inductive ApiResponse (α : Type) where
  | json (status : Nat) (error : String) (hint : Option String)
  | text (status : Nat) (body : SymCiphertext α)
deriving DecidableEq

/-- A plaintext wire response: the encrypted ping payload
`{data: {status: "active"}}` or a handler response. -/
inductive WireResponse where
  | ping (status : String)
  | flow (response : FlowResponse)
deriving DecidableEq

/-- The remediation hint returned on OAEP (key-mismatch) failures. -/
def oaepHint : String :=
  "Chave pública no Flow da Meta não corresponde à chave privada do servidor. Verifique a configuração das chaves."

/-- Model of `POST(request)`, from the point where the envelope fields are present
and a private key is configured (the missing-field 400 response and the
non-blocking key bootstrap precede this slice and are elided, as is
logging).  The source classifies a decryption throw by
`errorMessage.includes("oaep")`; per §4.1/§7 the errors whose message
mentions OAEP are exactly the asymmetric-unwrap (key-mismatch) failures,
so `isOaepError` is modelled as `DecryptError.keyMismatch`. -/
def POST (env : Env) (body : FlowEnvelope FlowRequest) (privateKey : Nat) :
    ApiResponse WireResponse :=
  match decryptRequest body privateKey with
  | .error e =>
    let isOaepError := e == DecryptError.keyMismatch
    .json 421 "Falha na descriptografia"
      (if isOaepError then some oaepHint else none)
  | .ok decrypted =>
    let flowRequest := decrypted.decryptedBody
    if flowRequest.action == "ping" then
      .text 200 (encryptResponse (WireResponse.ping "active")
        decrypted.aesKeyBuffer decrypted.initialVectorBuffer)
    else
      let response :=
        match handleFlowAction env flowRequest with
        | .ok r => r
        | .error msg => createErrorResponse msg
      .text 200 (encryptResponse (WireResponse.flow response)
        decrypted.aesKeyBuffer decrypted.initialVectorBuffer)

/-! ## Characterization of the slot-generation loop -/

/-- The candidate start times the generation loop visits: `workStart`,
`workStart + slotDuration`, … while `currentMinutes + slotDuration ≤
workEnd`. -/
def candidateStarts (slotDuration workEnd : Nat) : Nat → Nat → List Nat
  | 0, _ => []
  | fuel + 1, currentMinutes =>
    if currentMinutes + slotDuration ≤ workEnd then
      currentMinutes ::
        candidateStarts slotDuration workEnd fuel (currentMinutes + slotDuration)
    else []

/-- The filter the loop body applies to one candidate start time. -/
def keepSlot (ctx : DateContext) (slotDuration : Nat) (minAllowedTime : Int)
    (busy : List BusyTime) (m : Nat) : Option Slot :=
  let slotStart := fromZonedMinutes ctx m
  let slotEnd := slotStart + (slotDuration : Int) * 60 * 1000
  if slotStart ≤ minAllowedTime then none
  else if hasConflict busy slotStart slotEnd then none
  else some ⟨slotStart, m⟩

/-! ### Concrete material shared by the witnesses -/

/-- A concrete 16-byte session key. -/
def keyW : List Nat := List.replicate 16 1

/-- A concrete 16-byte session key different from `keyW`. -/
def keyW2 : List Nat := List.replicate 16 2

/-- A concrete 16-byte initialization vector. -/
def ivW : List Nat := [0, 1, 2, 3, 4, 5, 6, 7, 8, 9, 10, 11, 12, 13, 14, 15]

/-- A concrete decrypted request body (the health check). -/
def reqW : FlowRequest := ⟨"ping", none, none⟩

/-- A concrete environment. -/
def envW : Env :=
  { config := DEFAULT_CONFIG
    calendarId := some "primary"
    nowMs := 0
    busyItems := []
    dateCtx := fun _ => ⟨0, 1⟩
    today := ⟨2026, 10, 11⟩
    parseDateMs := fun _ => none
    createEventResult := .error "calendar unavailable"
    formatDDMM := fun _ => ""
    formatDDMMYYYY := fun _ => ""
    formatHHmmOfMs := fun _ => ""
    formatDateKeyOfMs := fun _ => "" }

/-- A well-formed concrete envelope for private key 5. -/
def pingBodyW : FlowEnvelope FlowRequest :=
  ⟨symEncrypt keyW ivW reqW, rsaWrap 5 keyW, ivW⟩

/-- The ciphertext `POST` produces for `pingBodyW`. -/
def pingCtW : SymCiphertext WireResponse :=
  symEncrypt keyW (flipIV ivW) (.ping "active")

/-- A concrete envelope whose wrapped key was made for public key 7, sent
to a server holding private key 5: asymmetric unwrap fails. -/
def mismatchBodyW : FlowEnvelope FlowRequest :=
  ⟨symEncrypt keyW ivW reqW, rsaWrap 7 keyW, ivW⟩

/-- A concrete envelope whose payload was encrypted under a different
session key than the wrapped one: unwrap succeeds, integrity fails. -/
def integrityBodyW : FlowEnvelope FlowRequest :=
  ⟨symEncrypt keyW2 ivW reqW, rsaWrap 5 keyW, ivW⟩

/-- Work-hours configuration of the concrete busy-overlap scenario:
30-minute slots, 10-minute buffer, periods 09:49–10:19 and 09:40–18:00 on
Monday, no advance-notice requirement. -/
def overlapScenarioConfig : CalendarBookingConfig :=
  { timezone := "America/Sao_Paulo"
    slotDurationMinutes := 30
    slotBufferMinutes := 10
    workingHours :=
      [⟨.mon, true, ⟨9, 0⟩, ⟨18, 0⟩,
        some [⟨⟨9, 49⟩, ⟨10, 19⟩⟩, ⟨⟨9, 40⟩, ⟨18, 0⟩⟩]⟩]
    minAdvanceHours := some 0 }

/-- The busy interval 10:00–10:30 (epoch ms, on a day whose local
midnight is instant 0). -/
def overlapScenarioBusy : List BusyTime := [⟨36000000, 37800000⟩]

/-- Model of `getAvailableSlots` on the busy-overlap scenario, a day after "now". -/
def overlapScenarioResult : Except String (List Slot) :=
  getAvailableSlots overlapScenarioConfig (some "primary") ⟨0, 1⟩ (-86400000)
    overlapScenarioBusy

/-- Work-hours configuration of the concrete advance-notice scenario:
30-minute slots, periods 12:00–12:30 and 12:01–12:31 on Monday, 4-hour
minimum advance notice. -/
def advanceScenarioConfig : CalendarBookingConfig :=
  { timezone := "America/Sao_Paulo"
    slotDurationMinutes := 30
    slotBufferMinutes := 0
    workingHours :=
      [⟨.mon, true, ⟨9, 0⟩, ⟨18, 0⟩,
        some [⟨⟨12, 0⟩, ⟨12, 30⟩⟩, ⟨⟨12, 1⟩, ⟨12, 31⟩⟩]⟩]
    minAdvanceHours := some 4 }

/-- Model of `getAvailableSlots` on the advance-notice scenario with "now" at
08:00 (28800000 ms past local midnight, instant 0): the candidates start
at 12:00 (43200000 ms) and 12:01 (43260000 ms). -/
def advanceScenarioResult : Except String (List Slot) :=
  getAvailableSlots advanceScenarioConfig (some "primary") ⟨0, 1⟩ 28800000 []

/-- An environment whose date resolution lands on an ISO weekday 7
(Sunday), which `DEFAULT_CONFIG` disables. -/
def envDisabledW : Env := { envW with dateCtx := fun _ => ⟨0, 7⟩ }

/-- An environment with no connected calendar (and a disabled weekday in
its date resolution, to exercise the check order). -/
def envNoCalendarW : Env :=
  { envW with calendarId := none, dateCtx := fun _ => ⟨0, 7⟩ }

/-- The weekday key the picker loop derives for a date (`getUTCDay()`,
with Sunday mapped to ISO day 7). -/
def dayKeyOfDate (date : CivilDate) : Weekday :=
  let jsDay := jsUTCDay date
  let isoDay := if jsDay == 0 then 7 else jsDay
  WEEKDAY_KEYS.getD (isoDay - 1) .mon

/-- The `!workingDay?.enabled` test of the picker loop for a date. -/
def dateDisabled (config : CalendarBookingConfig) (date : CivilDate) : Bool :=
  match config.workingHours.find? (fun w => w.day == dayKeyOfDate date) with
  | some workingDay => !workingDay.enabled
  | none => true

/-! ## Helper lemmas -/

theorem flipByte_ne (b : Nat) : flipByte b ≠ b := by
  unfold flipByte
  omega

theorem flipByte_flipByte {b : Nat} (hb : b < 256) : flipByte (flipByte b) = b := by
  unfold flipByte
  omega

theorem flipIV_flipIV {iv : List Nat} (h : ∀ b ∈ iv, b < 256) :
    flipIV (flipIV iv) = iv := by
  induction iv with
  | nil => rfl
  | cons a t ih =>
    have ha : flipByte (flipByte a) = a := flipByte_flipByte (h a (by simp))
    have ht := ih fun b hb => h b (by simp [hb])
    simp only [flipIV, List.map_cons] at ht ⊢
    rw [ha, ht]

theorem flipIV_ne {iv : List Nat} (h : iv ≠ []) : flipIV iv ≠ iv := by
  cases iv with
  | nil => exact absurd rfl h
  | cons a t =>
    intro hEq
    have : flipByte a = a := by
      have := congrArg List.head? hEq
      simpa [flipIV] using this
    exact flipByte_ne a this

theorem decryptRequest_ok_iv {α : Type} {env : FlowEnvelope α} {priv : Nat}
    {d : DecryptedRequest α} (h : decryptRequest env priv = .ok d) :
    d.initialVectorBuffer = env.initial_vector := by
  unfold decryptRequest at h
  split at h
  · exact absurd h (by simp)
  · split at h
    · exact absurd h (by simp)
    · cases h
      rfl

/-! ## Claims about the crypto envelope -/

/-- C1: for every request/response pair, the IV of the ciphertext a
successful `POST` returns equals the bitwise complement of the request's
`initial_vector`; and a ciphertext produced with the *unmodified* request
IV is rejected by a reference decryptor that follows the flipped-IV
convention. -/
theorem response_iv_is_flipped_request_iv :
    (∀ (env : Env) (body : FlowEnvelope FlowRequest) (privateKey status : Nat)
       (ct : SymCiphertext WireResponse),
       POST env body privateKey = ApiResponse.text status ct →
       ct.iv = flipIV body.initial_vector) ∧
    (∀ (key requestIV : List Nat) (p : String), requestIV.length = 16 →
       referenceDecrypt key requestIV (symEncrypt key requestIV p) = none) := by
  constructor
  · intro env body privateKey status ct h
    unfold POST at h
    split at h
    · exact absurd h (by simp)
    · next decrypted heq =>
      have hiv := decryptRequest_ok_iv heq
      dsimp only at h
      split at h
      · cases h
        simp [encryptResponse, symEncrypt, hiv]
      · cases h
        simp [encryptResponse, symEncrypt, hiv]
  · intro key requestIV p hlen
    have hne : flipIV requestIV ≠ requestIV := by
      apply flipIV_ne
      intro hnil
      rw [hnil] at hlen
      exact absurd hlen (by decide)
    unfold referenceDecrypt symDecrypt symEncrypt
    simp only
    rw [if_neg]
    intro hc
    exact hne hc.2.symm

/-- Witness for the response-IV property at a concrete request. -/
theorem response_iv_is_flipped_request_iv_witness :
    pingCtW.iv = flipIV ivW ∧
    referenceDecrypt keyW ivW (symEncrypt keyW ivW "p") = none :=
  ⟨response_iv_is_flipped_request_iv.1 envW pingBodyW 5 200 pingCtW (by decide),
   response_iv_is_flipped_request_iv.2 keyW ivW "p" (by decide)⟩

/-- C2: for every plaintext JSON value `p`, matching key pair, 16-byte
session key and 16-byte IV, decrypting (with the private key and the
original IV) the envelope whose payload was produced by `encrypt` under
the session key with the bit-flipped IV recovers exactly `p` (with the
session key and IV). -/
theorem decrypt_encrypt_roundtrip {α : Type} (p : α) (sessionKey iv : List Nat)
    (privateKey : Nat) (_hkey : sessionKey.length = 16) (_hiv : iv.length = 16)
    (hbytes : ∀ b ∈ iv, b < 256) :
    decryptRequest
      (FlowEnvelope.mk (encryptResponse p sessionKey (flipIV iv))
        (rsaWrap privateKey sessionKey) iv) privateKey
      = .ok ⟨p, sessionKey, iv⟩ := by
  unfold decryptRequest rsaUnwrap rsaWrap encryptResponse symEncrypt symDecrypt
  simp [flipIV_flipIV hbytes]

/-- Witness for the round-trip at a concrete plaintext, key pair and IV. -/
theorem decrypt_encrypt_roundtrip_witness :
    decryptRequest
      (FlowEnvelope.mk (encryptResponse "plaintext" keyW (flipIV ivW))
        (rsaWrap 5 keyW) ivW) 5
      = .ok ⟨"plaintext", keyW, ivW⟩ :=
  decrypt_encrypt_roundtrip "plaintext" keyW ivW 5 (by decide) (by decide) (by decide)

theorem decryptRequest_of_unwrap_fail {α : Type} {env : FlowEnvelope α} {priv : Nat}
    (h : rsaUnwrap priv env.encrypted_aes_key = none) :
    decryptRequest env priv = .error .keyMismatch := by
  unfold decryptRequest
  rw [h]

theorem decryptRequest_of_integrity_fail {α : Type} {env : FlowEnvelope α}
    {priv : Nat} {key : List Nat}
    (h1 : rsaUnwrap priv env.encrypted_aes_key = some key)
    (h2 : symDecrypt key env.initial_vector env.encrypted_flow_data = none) :
    decryptRequest env priv = .error .integrityFailure := by
  unfold decryptRequest
  rw [h1]
  simp only
  rw [h2]

/-- C3: when decryption fails because the asymmetric unwrap of the
session key fails (key mismatch), `POST` returns the fixed 421 JSON body
with a remediation hint — a constant carrying no plaintext or key
material — while a payload-integrity failure yields the same status with
no hint, so the two are distinguishable; 421 is neither 200 nor 500. -/
theorem keymismatch_error_distinguished :
    (∀ (env : Env) (body : FlowEnvelope FlowRequest) (privateKey : Nat),
       rsaUnwrap privateKey body.encrypted_aes_key = none →
       POST env body privateKey =
         ApiResponse.json 421 "Falha na descriptografia" (some oaepHint)) ∧
    (∀ (env : Env) (body : FlowEnvelope FlowRequest) (privateKey : Nat)
       (key : List Nat),
       rsaUnwrap privateKey body.encrypted_aes_key = some key →
       symDecrypt key body.initial_vector body.encrypted_flow_data = none →
       POST env body privateKey =
         ApiResponse.json 421 "Falha na descriptografia" none) ∧
    (ApiResponse.json (α := WireResponse) 421 "Falha na descriptografia"
        (some oaepHint) ≠
      ApiResponse.json 421 "Falha na descriptografia" none) ∧
    421 ≠ 200 ∧ 421 ≠ 500 := by
  refine ⟨?_, ?_, by decide, by decide, by decide⟩
  · intro env body privateKey h
    unfold POST
    rw [decryptRequest_of_unwrap_fail h]
    rfl
  · intro env body privateKey key h1 h2
    unfold POST
    rw [decryptRequest_of_integrity_fail h1 h2]
    rfl

/-- Witness for the key-mismatch error handling at concrete requests. -/
theorem keymismatch_error_distinguished_witness :
    POST envW mismatchBodyW 5 =
      ApiResponse.json 421 "Falha na descriptografia" (some oaepHint) ∧
    POST envW integrityBodyW 5 =
      ApiResponse.json 421 "Falha na descriptografia" none :=
  ⟨keymismatch_error_distinguished.1 envW mismatchBodyW 5 (by decide),
   keymismatch_error_distinguished.2.1 envW integrityBodyW 5 keyW
     (by decide) (by decide)⟩

theorem generateSlotsLoop_eq_filterMap (slotDuration workEnd : Nat)
    (ctx : DateContext) (minAllowedTime : Int) (busy : List BusyTime) :
    ∀ (fuel currentMinutes : Nat),
      generateSlotsLoop slotDuration workEnd ctx minAllowedTime busy fuel
          currentMinutes =
        (candidateStarts slotDuration workEnd fuel currentMinutes).filterMap
          (keepSlot ctx slotDuration minAllowedTime busy) := by
  intro fuel
  induction fuel with
  | zero => intro cur; rfl
  | succ n ih =>
    intro cur
    unfold generateSlotsLoop candidateStarts
    by_cases h1 : cur + slotDuration ≤ workEnd
    · rw [if_pos h1, if_pos h1, List.filterMap_cons]
      unfold keepSlot
      dsimp only
      by_cases h2 : fromZonedMinutes ctx cur ≤ minAllowedTime
      · rw [if_pos h2, if_pos h2, ih]
        rfl
      · rw [if_neg h2, if_neg h2]
        by_cases h3 : hasConflict busy (fromZonedMinutes ctx cur)
            (fromZonedMinutes ctx cur + (slotDuration : Int) * 60 * 1000) = true
        · rw [if_pos h3, if_pos h3, ih]
          rfl
        · rw [if_neg h3, if_neg h3, ih]
          rfl
    · rw [if_neg h1, if_neg h1]
      rfl

/-- With positive slot duration, any fuel of at least
`workEnd + 1 - currentMinutes` computes the full loop: the model's fuel
choice is irrelevant, matching the unbounded `while` of the source. -/
theorem generateSlotsLoop_fuel_irrelevant (slotDuration workEnd : Nat)
    (ctx : DateContext) (minAllowedTime : Int) (busy : List BusyTime)
    (hdur : 0 < slotDuration) :
    ∀ (fuel fuel' currentMinutes : Nat),
      workEnd + 1 ≤ currentMinutes + fuel →
      workEnd + 1 ≤ currentMinutes + fuel' →
      generateSlotsLoop slotDuration workEnd ctx minAllowedTime busy fuel
          currentMinutes =
        generateSlotsLoop slotDuration workEnd ctx minAllowedTime busy fuel'
          currentMinutes := by
  intro fuel
  induction fuel with
  | zero =>
    intro fuel' cur h h'
    cases fuel' with
    | zero => rfl
    | succ m =>
      unfold generateSlotsLoop
      rw [if_neg (by omega)]
  | succ n ih =>
    intro fuel' cur h h'
    cases fuel' with
    | zero =>
      unfold generateSlotsLoop
      rw [if_neg (by omega)]
    | succ m =>
      unfold generateSlotsLoop
      by_cases h1 : cur + slotDuration ≤ workEnd
      · rw [if_pos h1, if_pos h1, ih m (cur + slotDuration) (by omega) (by omega)]
      · rw [if_neg h1, if_neg h1]

theorem mem_generateSlotsLoop {slotDuration workEnd fuel startMin m : Nat}
    {ctx : DateContext} {minAllowedTime : Int} {busy : List BusyTime}
    (hm : m ∈ candidateStarts slotDuration workEnd fuel startMin)
    (hadv : ¬ fromZonedMinutes ctx m ≤ minAllowedTime) :
    ((⟨fromZonedMinutes ctx m, m⟩ : Slot) ∈
        generateSlotsLoop slotDuration workEnd ctx minAllowedTime busy fuel
          startMin ↔
      hasConflict busy (fromZonedMinutes ctx m)
        (fromZonedMinutes ctx m + (slotDuration : Int) * 60 * 1000) = false) := by
  rw [generateSlotsLoop_eq_filterMap, List.mem_filterMap]
  constructor
  · rintro ⟨a, _, hk⟩
    unfold keepSlot at hk
    dsimp only at hk
    by_cases h2 : fromZonedMinutes ctx a ≤ minAllowedTime
    · rw [if_pos h2] at hk
      exact absurd hk (by simp)
    · rw [if_neg h2] at hk
      by_cases h3 : hasConflict busy (fromZonedMinutes ctx a)
          (fromZonedMinutes ctx a + (slotDuration : Int) * 60 * 1000) = true
      · rw [if_pos h3] at hk
        exact absurd hk (by simp)
      · rw [if_neg h3] at hk
        have ha : a = m := by
          have := congrArg (fun o => (o.map Slot.title).getD 0) hk
          simpa using this
        rw [ha] at h3
        exact Bool.not_eq_true _ ▸ (by simpa using h3)
  · intro hnc
    refine ⟨m, hm, ?_⟩
    unfold keepSlot
    dsimp only
    rw [if_neg hadv, hnc]
    simp

theorem not_mem_generateSlotsLoop_of_advance {slotDuration workEnd fuel startMin m : Nat}
    {ctx : DateContext} {minAllowedTime : Int} {busy : List BusyTime}
    (hadv : fromZonedMinutes ctx m ≤ minAllowedTime) :
    (⟨fromZonedMinutes ctx m, m⟩ : Slot) ∉
      generateSlotsLoop slotDuration workEnd ctx minAllowedTime busy fuel
        startMin := by
  rw [generateSlotsLoop_eq_filterMap, List.mem_filterMap]
  rintro ⟨a, _, hk⟩
  unfold keepSlot at hk
  dsimp only at hk
  by_cases h2 : fromZonedMinutes ctx a ≤ minAllowedTime
  · rw [if_pos h2] at hk
    exact absurd hk (by simp)
  · rw [if_neg h2] at hk
    by_cases h3 : hasConflict busy (fromZonedMinutes ctx a)
        (fromZonedMinutes ctx a + (slotDuration : Int) * 60 * 1000) = true
    · rw [if_pos h3] at hk
      exact absurd hk (by simp)
    · rw [if_neg h3] at hk
      have ha : a = m := by
        have := congrArg (fun o => (o.map Slot.title).getD 0) hk
        simpa using this
      rw [ha] at h2
      exact h2 hadv

/-! ## Claims about the availability engine -/

/-- C4: in `getAvailableSlots`, every busy interval is expanded by
the buffer on both ends, and a candidate slot passing the advance filter
is discarded exactly when
`candidateStart < expandedBusyEnd ∧ candidateEnd > expandedBusyStart` for
some busy interval; concretely, with busy interval 10:00–10:30, a
10-minute buffer and 30-minute slots, the slots starting 09:49 (id
35340000 ms) and 09:40 (id 34800000 ms) are excluded while the slot
starting 10:40 (id 38400000 ms) is included. -/
theorem busy_overlap_discard :
    (∀ (busyItems : List BusyTime) (bufferMs slotStartMs slotEndMs : Int),
       hasConflict (busyItems.map (expandBusy bufferMs)) slotStartMs slotEndMs =
         busyItems.any fun b =>
           slotStartMs < b.endMs + bufferMs && slotEndMs > b.startMs - bufferMs) ∧
    (∀ (slotDuration workEnd fuel startMin m : Nat) (ctx : DateContext)
       (minAllowedTime : Int) (busy : List BusyTime),
       m ∈ candidateStarts slotDuration workEnd fuel startMin →
       ¬ fromZonedMinutes ctx m ≤ minAllowedTime →
       ((⟨fromZonedMinutes ctx m, m⟩ : Slot) ∉
           generateSlotsLoop slotDuration workEnd ctx minAllowedTime busy fuel
             startMin ↔
         hasConflict busy (fromZonedMinutes ctx m)
           (fromZonedMinutes ctx m + (slotDuration : Int) * 60 * 1000) = true)) ∧
    ((⟨35340000, 589⟩ : Slot) ∉ (overlapScenarioResult.toOption.getD []) ∧
     (⟨34800000, 580⟩ : Slot) ∉ (overlapScenarioResult.toOption.getD []) ∧
     (⟨38400000, 640⟩ : Slot) ∈ (overlapScenarioResult.toOption.getD [])) := by
  refine ⟨?_, ?_, by decide, by decide, by decide⟩
  · intro busyItems bufferMs s e
    unfold hasConflict expandBusy
    rw [List.any_map]
    rfl
  · intro slotDuration workEnd fuel startMin m ctx minAllowedTime busy hm hadv
    rw [not_iff_comm.symm]
    rw [mem_generateSlotsLoop hm hadv]
    constructor
    · intro h
      simp [h]
    · intro h
      simpa using h

/-- C5: the advance filter of `getAvailableSlots` discards a
candidate slot when its start instant is at or before
`now + minAdvanceHours` (whatever the busy intervals), and with no busy
intervals a candidate is kept if and only if its start is strictly after
that bound; concretely, with `minAdvanceHours = 4` and "now" at 08:00,
the candidate at exactly 12:00 is excluded and the candidate at 12:01 is
included. -/
theorem advance_notice_discard :
    (∀ (slotDuration workEnd fuel startMin m : Nat) (ctx : DateContext)
       (minAllowedTime : Int) (busy : List BusyTime),
       fromZonedMinutes ctx m ≤ minAllowedTime →
       (⟨fromZonedMinutes ctx m, m⟩ : Slot) ∉
         generateSlotsLoop slotDuration workEnd ctx minAllowedTime busy fuel
           startMin) ∧
    (∀ (slotDuration workEnd fuel startMin m : Nat) (ctx : DateContext)
       (minAllowedTime : Int),
       m ∈ candidateStarts slotDuration workEnd fuel startMin →
       ((⟨fromZonedMinutes ctx m, m⟩ : Slot) ∈
           generateSlotsLoop slotDuration workEnd ctx minAllowedTime [] fuel
             startMin ↔
         ¬ fromZonedMinutes ctx m ≤ minAllowedTime)) ∧
    advanceScenarioResult.toOption = some [⟨43260000, 721⟩] := by
  refine ⟨?_, ?_, by decide⟩
  · intro slotDuration workEnd fuel startMin m ctx minAllowedTime busy hadv
    exact not_mem_generateSlotsLoop_of_advance hadv
  · intro slotDuration workEnd fuel startMin m ctx minAllowedTime hm
    by_cases hadv : fromZonedMinutes ctx m ≤ minAllowedTime
    · constructor
      · intro hmem
        exact absurd hmem (not_mem_generateSlotsLoop_of_advance hadv)
      · intro h
        exact absurd hadv h
    · rw [mem_generateSlotsLoop hm hadv]
      constructor
      · intro _
        exact hadv
      · intro _
        simp [hasConflict]

/-- Witness for the overlap-discard characterization at the 09:49
candidate of the concrete scenario (busy 10:00–10:30 expanded by the
10-minute buffer to 09:50–10:40). -/
theorem busy_overlap_discard_witness :
    (⟨fromZonedMinutes ⟨0, 1⟩ 589, 589⟩ : Slot) ∉
        generateSlotsLoop 30 619 ⟨0, 1⟩ (-1) [⟨35400000, 38400000⟩] 620 589 ↔
      hasConflict [⟨35400000, 38400000⟩] (fromZonedMinutes ⟨0, 1⟩ 589)
        (fromZonedMinutes ⟨0, 1⟩ 589 + (30 : Int) * 60 * 1000) = true :=
  busy_overlap_discard.2.1 30 619 620 589 589 ⟨0, 1⟩ (-1) [⟨35400000, 38400000⟩]
    (by decide) (by decide)

/-- Witness for the advance-notice characterization at the 12:00
candidate, with the minimum allowed instant at exactly 12:00. -/
theorem advance_notice_discard_witness :
    ((⟨fromZonedMinutes ⟨0, 1⟩ 720, 720⟩ : Slot) ∈
        generateSlotsLoop 30 750 ⟨0, 1⟩ 43200000 [] 751 720 ↔
      ¬ fromZonedMinutes ⟨0, 1⟩ 720 ≤ 43200000) ∧
    (⟨fromZonedMinutes ⟨0, 1⟩ 720, 720⟩ : Slot) ∉
      generateSlotsLoop 30 750 ⟨0, 1⟩ 43200000 [] 751 720 :=
  ⟨advance_notice_discard.2.1 30 750 751 720 720 ⟨0, 1⟩ 43200000 (by decide),
   advance_notice_discard.1 30 750 751 720 720 ⟨0, 1⟩ 43200000 [] (by decide)⟩

/-! ## Claims about the booking state machine -/

theorem string_length_zero {b : String} (h : b.length = 0) : b = "" := by
  cases b with
  | mk data =>
    cases data with
    | nil => rfl
    | cons c t => simp [String.length] at h

theorem string_append_ne_empty (a : String) {b : String} (hb : b ≠ "") :
    a ++ b ≠ "" := by
  intro h
  apply hb
  have hlen := congrArg String.length h
  rw [String.length_append] at hlen
  have h0 : ("" : String).length = 0 := rfl
  rw [h0] at hlen
  exact string_length_zero (by omega)

theorem getAvailableSlots_disabled {config : CalendarBookingConfig}
    {ctx : DateContext} {workingDay : WorkingHoursDay} (cid : String)
    (nowMs : Int) (busyItems : List BusyTime)
    (hfind : config.workingHours.find? (fun d => d.day == getWeekdayKey ctx) =
      some workingDay)
    (hdis : workingDay.enabled = false) :
    getAvailableSlots config (some cid) ctx nowMs busyItems = .ok [] := by
  unfold getAvailableSlots
  dsimp only
  rw [hfind]
  dsimp only
  rw [hdis]
  rfl

/-- C6: for a date whose weekday (resolved in the configured zone) is
disabled in the working-hours configuration, `getAvailableSlots` returns
the empty list, and a `data_exchange` on `BOOKING_START` with such a
`selected_date` re-renders `BOOKING_START` with `has_error = true`, a
non-empty error message, refreshed date-picker metadata and no slots
(assuming a calendar is connected — without one `getAvailableSlots`
throws before the weekday check, see C9). -/
theorem disabled_day_rerenders_with_error :
    (∀ (config : CalendarBookingConfig) (cid : String) (ctx : DateContext)
       (nowMs : Int) (busyItems : List BusyTime) (workingDay : WorkingHoursDay),
       config.workingHours.find? (fun d => d.day == getWeekdayKey ctx) =
         some workingDay →
       workingDay.enabled = false →
       getAvailableSlots config (some cid) ctx nowMs busyItems = .ok []) ∧
    (∀ (env : Env) (data : FlowData) (dateStr cid : String)
       (workingDay : WorkingHoursDay),
       env.calendarId = some cid →
       data.selected_date = some dateStr →
       dateStr ≠ "" →
       env.config.workingHours.find?
           (fun d => d.day == getWeekdayKey (env.dateCtx dateStr)) =
         some workingDay →
       workingDay.enabled = false →
       handleDataExchange env "BOOKING_START" data =
         createSuccessResponse "BOOKING_START"
           { spreadData data with
             min_date := some (getCalendarPickerData env.config env.today).minDate
             max_date := some (getCalendarPickerData env.config env.today).maxDate
             include_days := some (getCalendarPickerData env.config env.today).includeDays
             unavailable_dates :=
               some (getCalendarPickerData env.config env.today).unavailableDates
             error_message :=
               some (formatDateChip env dateStr ++ " sem horarios. Escolha outra data.")
             has_error := some true } ∧
       (formatDateChip env dateStr ++ " sem horarios. Escolha outra data.") ≠ "" ∧
       (spreadData data).slots = none) := by
  constructor
  · intro config cid ctx nowMs busyItems workingDay hfind hdis
    exact getAvailableSlots_disabled cid nowMs busyItems hfind hdis
  · intro env data dateStr cid workingDay hcid hdata hne hfind hdis
    have hfalsy : strFalsy (some dateStr) = false := by
      simp [strFalsy, hne]
    have hslots : getAvailableSlots env.config env.calendarId
        (env.dateCtx dateStr) env.nowMs env.busyItems = .ok [] := by
      rw [hcid]
      exact getAvailableSlots_disabled cid env.nowMs env.busyItems hfind hdis
    refine ⟨?_, string_append_ne_empty _ (by decide), rfl⟩
    unfold handleDataExchange
    simp only [hdata, Option.getD_some, hfalsy, hslots]
    simp [createSuccessResponse]

/-- Witness for the disabled-day behaviour on a concrete Sunday. -/
theorem disabled_day_rerenders_with_error_witness :
    getAvailableSlots DEFAULT_CONFIG (some "primary") ⟨0, 7⟩ 0 [] = .ok [] ∧
    handleDataExchange envDisabledW "BOOKING_START"
        { selected_date := some "2026-10-11" } =
      createSuccessResponse "BOOKING_START"
        { spreadData { selected_date := some "2026-10-11" } with
          min_date :=
            some (getCalendarPickerData envDisabledW.config envDisabledW.today).minDate
          max_date :=
            some (getCalendarPickerData envDisabledW.config envDisabledW.today).maxDate
          include_days :=
            some (getCalendarPickerData envDisabledW.config envDisabledW.today).includeDays
          unavailable_dates :=
            some (getCalendarPickerData envDisabledW.config envDisabledW.today).unavailableDates
          error_message :=
            some (formatDateChip envDisabledW "2026-10-11" ++
              " sem horarios. Escolha outra data.")
          has_error := some true } :=
  ⟨disabled_day_rerenders_with_error.1 DEFAULT_CONFIG "primary" ⟨0, 7⟩ 0 []
      ⟨.sun, false, ⟨9, 0⟩, ⟨13, 0⟩, none⟩ (by decide) rfl,
   (disabled_day_rerenders_with_error.2 envDisabledW
      { selected_date := some "2026-10-11" } "2026-10-11" "primary"
      ⟨.sun, false, ⟨9, 0⟩, ⟨13, 0⟩, none⟩ rfl rfl (by decide) (by decide) rfl).1⟩

/-- C7: a validation failure — missing `selected_date` on
`BOOKING_START`, missing `selected_slot` on `SELECT_TIME`, empty (or
whitespace-only) `customer_name` on `CUSTOMER_INFO` — produces the
structured error response (which re-renders the current screen with an
error flag and message) rather than a response advancing to another
screen or closing the flow. -/
theorem validation_failure_rerenders :
    (∀ (env : Env) (data : FlowData), strFalsy data.selected_date = true →
       handleDataExchange env "BOOKING_START" data =
         createErrorResponse "Selecione uma data") ∧
    (∀ (env : Env) (data : FlowData), strFalsy data.selected_slot = true →
       handleDataExchange env "SELECT_TIME" data =
         createErrorResponse "Selecione um horario") ∧
    (∀ (env : Env) (data : FlowData), jsTrim (data.customer_name.getD "") = "" →
       handleDataExchange env "CUSTOMER_INFO" data =
         createErrorResponse "Informe seu nome") ∧
    (∀ (message screen : String) (d : RData),
       createErrorResponse message ≠ createSuccessResponse screen d ∧
       createErrorResponse message ≠ createCloseResponse d) := by
  refine ⟨?_, ?_, ?_, ?_⟩
  · intro env data h
    unfold handleDataExchange
    simp [h]
  · intro env data h
    unfold handleDataExchange
    simp [h]
  · intro env data h
    unfold handleDataExchange
    simp [h]
  · intro message screen d
    exact ⟨by simp [createErrorResponse, createSuccessResponse],
           by simp [createErrorResponse, createCloseResponse]⟩

/-- Witness for the three validation failures with empty request data. -/
theorem validation_failure_rerenders_witness :
    handleDataExchange envW "BOOKING_START" {} =
      createErrorResponse "Selecione uma data" ∧
    handleDataExchange envW "SELECT_TIME" {} =
      createErrorResponse "Selecione um horario" ∧
    handleDataExchange envW "CUSTOMER_INFO" { customer_name := some "   " } =
      createErrorResponse "Informe seu nome" :=
  ⟨validation_failure_rerenders.1 envW {} (by decide),
   validation_failure_rerenders.2.1 envW {} (by decide),
   validation_failure_rerenders.2.2.1 envW { customer_name := some "   " }
     (by decide)⟩

/-- C9: `getAvailableSlots` checks the calendar connection before the
weekday: with no connected calendar it throws for *every* date context —
including one whose weekday is disabled — so a `BOOKING_START`
`data_exchange` yields the generic error response, not the empty-slot
`BOOKING_START` re-render. -/
theorem no_calendar_generic_error :
    (∀ (config : CalendarBookingConfig) (ctx : DateContext) (nowMs : Int)
       (busyItems : List BusyTime),
       getAvailableSlots config none ctx nowMs busyItems =
         .error "Google Calendar nao conectado") ∧
    (∀ (env : Env) (data : FlowData) (dateStr : String),
       env.calendarId = none →
       data.selected_date = some dateStr →
       dateStr ≠ "" →
       handleDataExchange env "BOOKING_START" data =
         createErrorResponse "Google Calendar nao conectado") ∧
    (∀ (message screen : String) (d : RData),
       createErrorResponse message ≠ createSuccessResponse screen d) := by
  refine ⟨?_, ?_, ?_⟩
  · intro config ctx nowMs busyItems
    rfl
  · intro env data dateStr hcid hdata hne
    have hfalsy : strFalsy (some dateStr) = false := by
      simp [strFalsy, hne]
    have herr : getAvailableSlots env.config env.calendarId
        (env.dateCtx dateStr) env.nowMs env.busyItems =
        .error "Google Calendar nao conectado" := by
      rw [hcid]
      rfl
    unfold handleDataExchange
    simp only [hdata, Option.getD_some, hfalsy, herr]
    simp
  · intro message screen d
    simp [createErrorResponse, createSuccessResponse]

/-- Witness for the disconnected-calendar behaviour on a disabled day. -/
theorem no_calendar_generic_error_witness :
    getAvailableSlots DEFAULT_CONFIG none ⟨0, 7⟩ 0 [] =
      .error "Google Calendar nao conectado" ∧
    handleDataExchange envNoCalendarW "BOOKING_START"
        { selected_date := some "2026-10-11" } =
      createErrorResponse "Google Calendar nao conectado" :=
  ⟨no_calendar_generic_error.1 DEFAULT_CONFIG ⟨0, 7⟩ 0 [],
   no_calendar_generic_error.2.1 envNoCalendarW
     { selected_date := some "2026-10-11" } "2026-10-11" rfl rfl (by decide)⟩

/-- C10: on `CUSTOMER_INFO` only `customer_name` is validated: with a
non-empty name but a missing or unparsable `selected_slot`,
`createBookingEvent` is still invoked with that slot value, throws
`Invalid time value` before the external call, and the exception is
caught and converted into the generic structured error response — not the
slot-validation message, and not an advance or close. -/
theorem customer_info_invalid_slot_generic_error :
    (∀ (env : Env) (data : FlowData) (cid : String),
       env.calendarId = some cid →
       jsTrim (data.customer_name.getD "") ≠ "" →
       data.selected_slot.bind env.parseDateMs = none →
       handleDataExchange env "CUSTOMER_INFO" data =
         createErrorResponse "Invalid time value" ∧
       createBookingEvent env
           { slotIso := data.selected_slot
             service := data.selected_service
             customerName := jsTrim (data.customer_name.getD "")
             customerPhone := data.customer_phone.getD ""
             notes := data.notes } = .error "Invalid time value") ∧
    createErrorResponse "Invalid time value" ≠
      createErrorResponse "Selecione um horario" ∧
    (∀ (message screen : String) (d : RData),
       createErrorResponse message ≠ createSuccessResponse screen d ∧
       createErrorResponse message ≠ createCloseResponse d) := by
  refine ⟨?_, by decide, ?_⟩
  · intro env data cid hcid hname hslot
    have hbook : createBookingEvent env
        { slotIso := data.selected_slot
          service := data.selected_service
          customerName := jsTrim (data.customer_name.getD "")
          customerPhone := data.customer_phone.getD ""
          notes := data.notes } = .error "Invalid time value" := by
      unfold createBookingEvent
      rw [hcid]
      dsimp only
      rw [hslot]
    refine ⟨?_, hbook⟩
    have hnb : (jsTrim (data.customer_name.getD "") == "") = false := by
      simpa using hname
    unfold handleDataExchange
    simp only [hnb, hbook]
    simp [hbook]
  · intro message screen d
    exact ⟨by simp [createErrorResponse, createSuccessResponse],
           by simp [createErrorResponse, createCloseResponse]⟩

/-- Witness for the unvalidated-slot behaviour: non-empty name, absent
slot. -/
theorem customer_info_invalid_slot_generic_error_witness :
    handleDataExchange envW "CUSTOMER_INFO" { customer_name := some "Ana" } =
      createErrorResponse "Invalid time value" :=
  (customer_info_invalid_slot_generic_error.1 envW
    { customer_name := some "Ana" } "primary" rfl (by decide) rfl).1

/-! ## Claim about the date picker -/

theorem picker_loop_body (config : CalendarBookingConfig) (d : CivilDate) :
    (match config.workingHours.find? (fun w => w.day == dayKeyOfDate d) with
     | some workingDay => if workingDay.enabled then none else some d
     | none => some d) =
    if dateDisabled config d then some d else none := by
  unfold dateDisabled
  cases config.workingHours.find? (fun w => w.day == dayKeyOfDate d) with
  | none => rfl
  | some wd => cases h : wd.enabled <;> simp [h]

/-- C8: `getCalendarPickerData` returns `minDate` equal to today in
the configured zone, `maxDate` equal to `minDate` plus `maxAdvanceDays`
days, `includeDays` holding exactly the labels of weekdays with
`enabled = true`, and `unavailableDates` holding exactly the dates from
`minDate` to `maxDate` inclusive whose weekday is disabled. -/
theorem calendar_picker_data_correct (config : CalendarBookingConfig)
    (today : CivilDate) :
    (getCalendarPickerData config today).minDate = today ∧
    (getCalendarPickerData config today).maxDate =
      addDays today (config.maxAdvanceDays.getD 14) ∧
    (∀ lbl : String,
       lbl ∈ (getCalendarPickerData config today).includeDays ↔
       ∃ w ∈ config.workingHours, w.enabled = true ∧ WEEKDAY_LABELS w.day = lbl) ∧
    (∀ date : CivilDate,
       date ∈ (getCalendarPickerData config today).unavailableDates ↔
       ∃ off ≤ config.maxAdvanceDays.getD 14,
         date = addDays today off ∧ dateDisabled config date = true) := by
  refine ⟨rfl, rfl, ?_, ?_⟩
  · intro lbl
    unfold getCalendarPickerData
    dsimp only
    rw [List.mem_map]
    constructor
    · rintro ⟨w, hw, rfl⟩
      rw [List.mem_filter] at hw
      exact ⟨w, hw.1, hw.2, rfl⟩
    · rintro ⟨w, hw, hen, rfl⟩
      exact ⟨w, List.mem_filter.mpr ⟨hw, hen⟩, rfl⟩
  · intro date
    unfold getCalendarPickerData
    dsimp only
    rw [List.mem_filterMap]
    constructor
    · rintro ⟨off, hoff, heq⟩
      rw [List.mem_range] at hoff
      have heq' :
          (match config.workingHours.find?
              (fun w => w.day == dayKeyOfDate (addDays today off)) with
           | some workingDay =>
             if workingDay.enabled then none else some (addDays today off)
           | none => some (addDays today off)) = some date := heq
      rw [picker_loop_body] at heq'
      by_cases hdis : dateDisabled config (addDays today off) = true
      · rw [if_pos hdis] at heq'
        have hd : addDays today off = date := by
          injection heq'
        exact ⟨off, by omega, hd.symm, hd ▸ hdis⟩
      · rw [if_neg hdis] at heq'
        cases heq'
    · rintro ⟨off, hoff, rfl, hdis⟩
      refine ⟨off, List.mem_range.mpr (by omega), ?_⟩
      show
        (match config.workingHours.find?
            (fun w => w.day == dayKeyOfDate (addDays today off)) with
         | some workingDay =>
           if workingDay.enabled then none else some (addDays today off)
         | none => some (addDays today off)) = some (addDays today off)
      rw [picker_loop_body, if_pos hdis]

/-- Witness for the picker data at `DEFAULT_CONFIG` and a concrete
Sunday (2026-10-11): Saturday 2026-10-17 is in range and disabled. -/
theorem calendar_picker_data_correct_witness :
    (getCalendarPickerData DEFAULT_CONFIG ⟨2026, 10, 11⟩).minDate =
      ⟨2026, 10, 11⟩ ∧
    (getCalendarPickerData DEFAULT_CONFIG ⟨2026, 10, 11⟩).maxDate =
      addDays ⟨2026, 10, 11⟩ 14 ∧
    ((⟨2026, 10, 17⟩ : CivilDate) ∈
        (getCalendarPickerData DEFAULT_CONFIG ⟨2026, 10, 11⟩).unavailableDates ↔
      ∃ off ≤ 14, (⟨2026, 10, 17⟩ : CivilDate) = addDays ⟨2026, 10, 11⟩ off ∧
        dateDisabled DEFAULT_CONFIG ⟨2026, 10, 17⟩ = true) :=
  ⟨(calendar_picker_data_correct DEFAULT_CONFIG ⟨2026, 10, 11⟩).1,
   (calendar_picker_data_correct DEFAULT_CONFIG ⟨2026, 10, 11⟩).2.1,
   (calendar_picker_data_correct DEFAULT_CONFIG ⟨2026, 10, 11⟩).2.2.2
     ⟨2026, 10, 17⟩⟩

end Zap
